import Mathlib

/-!
Verification of the securebot monitoring engine (src/securebot.py)

A shallow embedding of the log-ingestion and ban-management core of
`securebot.py`, together with theorems settling the specification claims.

Conventions:
* Python strings are modelled as `List Char` (byte strings of the watched
  files) or `String` (identifiers, fingerprints, messages).
* Python's f-string interpolation of `None` is modelled by `optStr`.
* External effects (SSH command execution, `fail2ban-client`, DNS lookups,
  config-file writes) are modelled as oracle inputs: the embedded functions
  take the outcome of each external call as an explicit argument and are
  total, mirroring the control flow of the source.
-/

/-! ## Python string primitives

`str.strip()` / `str.splitlines()` as used by `securebot.py`.  The
whitespace and line-break character sets are the ASCII/Latin-1 subset of
Python's (the unicode-only extras never occur in the inputs involved). -/

/-- Characters removed by Python `str.strip()` (ASCII/Latin-1 subset). -/
def pyIsSpace (c : Char) : Bool :=
  c = ' ' || c = '\t' || c = '\n' || c = '\x0d' || c = '\x0b' || c = '\x0c' ||
  c = '\x1c' || c = '\x1d' || c = '\x1e' || c = '\x85' || c = '\xa0'

/-- Line boundaries recognised by Python `str.splitlines()`
(ASCII/Latin-1 subset; `"\r\n"` is treated as a single boundary). -/
def isLineBreak (c : Char) : Bool :=
  c = '\n' || c = '\x0d' || c = '\x0b' || c = '\x0c' ||
  c = '\x1c' || c = '\x1d' || c = '\x1e' || c = '\x85'

/-- Python `str.strip()`. -/
def stripStr (l : List Char) : List Char :=
  ((l.dropWhile pyIsSpace).reverse.dropWhile pyIsSpace).reverse

/-- Worker for `splitlines`: `acc` holds the current (reversed) line. -/
def splitlinesAux : List Char → List Char → List (List Char)
  | [], acc => if acc.isEmpty then [] else [acc.reverse]
  | '\x0d' :: '\n' :: rest, acc => acc.reverse :: splitlinesAux rest []
  | c :: rest, acc =>
    if isLineBreak c then acc.reverse :: splitlinesAux rest []
    else splitlinesAux rest (c :: acc)

/-- Python `str.splitlines()`: a trailing line boundary does not produce an
empty final element. -/
def splitlines (l : List Char) : List (List Char) :=
  splitlinesAux l []

/-- Worker for `linesKeep`. -/
def linesKeepAux : List Char → List Char → List (List Char)
  | [], acc => if acc.isEmpty then [] else [acc.reverse]
  | '\n' :: rest, acc => ('\n' :: acc).reverse :: linesKeepAux rest []
  | c :: rest, acc => linesKeepAux rest (c :: acc)

/-- Split a byte string after each `'\n'`, keeping the terminators; a final
chunk without a terminator counts as a line (the line notion of `tail -n`). -/
def linesKeep (l : List Char) : List (List Char) :=
  linesKeepAux l []

/-- Model of `tail -n n file`: the last `n` lines of the file, as raw bytes. -/
def tailLines (n : Nat) (f : List Char) : List Char :=
  (((linesKeep f).reverse.take n).reverse).flatten

/-- String literal to byte-string. -/
def strL (s : String) : List Char :=
  s.data

/-! ## Log Tailer: `periodic_check_log` (src/securebot.py lines 917-974)

One iteration of the remote polling loop.  The oracle inputs of an
iteration are the liveness of the SSH transport, the outcome of a
reconnection attempt, the outcomes of the `stat` and read commands, and
the current content of the watched file.  `stat -c %s` is modelled by
`file.length`; `SSHManager.execute_command` strips the captured stdout
(line 326), hence the `stripStr` around both fetch commands. -/

/-- Oracle inputs of one polling-loop iteration. -/
structure PollInput where
  transportActive : Bool
  reconnectOk : Bool
  statOk : Bool
  readOk : Bool
  file : List Char
deriving Repr, DecidableEq

/-- Observable outcome of one polling-loop iteration. -/
structure PollResult where
  lastSize : Nat
  delivered : List (List Char)
  reconnectAttempted : Bool
  pollFailed : Bool
deriving Repr, DecidableEq

/-- Lines 960-962: `content.splitlines()`, keeping only lines with
non-blank content (`if line.strip()`), delivered in file order. -/
def processNewLines (content : List Char) : List (List Char) :=
  (splitlines content).filter (fun l => !(stripStr l).isEmpty)

/-- Lines 950-956: content fetched when the file has grown.  With
`last_size == 0` the code runs `tail -n 5` (bootstrap); otherwise
`tail -c +(last_size+1)`, i.e. the bytes from offset `last_size` on.
Both go through `execute_command`, whose result is stripped. -/
def pollContent (lastSize : Nat) (file : List Char) : List Char :=
  if lastSize = 0 then stripStr (tailLines 5 file)
  else stripStr (file.drop lastSize)

/-- One iteration of `periodic_check_log` (lines 921-974):
reconnect when the transport is down (924-936), `stat` (939-944), then
grow / rotation / no-change handling (948-969). -/
def periodicCheckIter (lastSize : Nat) (inp : PollInput) : PollResult :=
  if !inp.transportActive && !inp.reconnectOk then
    -- lines 924-934: reconnection failed; sleep and retry next interval
    ⟨lastSize, [], true, true⟩
  else if !inp.statOk then
    -- lines 942-944: stat failed; sleep and retry next interval
    ⟨lastSize, [], !inp.transportActive, true⟩
  else if lastSize < inp.file.length then
    if inp.readOk then
      -- lines 948-964: deliver the new lines and advance the offset
      ⟨inp.file.length, processNewLines (pollContent lastSize inp.file),
       !inp.transportActive, false⟩
    else
      -- read failed: `last_size` is only updated under `if success`
      ⟨lastSize, [], !inp.transportActive, true⟩
  else if inp.file.length < lastSize then
    -- lines 967-969: rotation detected, reset
    ⟨0, [], !inp.transportActive, false⟩
  else
    -- no change
    ⟨lastSize, [], !inp.transportActive, false⟩

/-- A sequence of polling iterations, threading `last_size`. -/
def runPolls (lastSize : Nat) : List PollInput → Nat × List PollResult
  | [] => (lastSize, [])
  | i :: rest =>
    let r := periodicCheckIter lastSize i
    let (l, rs) := runPolls r.lastSize rest
    (l, r :: rs)

/-- An iteration in which the transport is live and every remote command
succeeds: the pure content of a poll. -/
def pollStep (lastSize : Nat) (file : List Char) : PollResult :=
  periodicCheckIter lastSize ⟨true, true, true, true, file⟩

/-- Delivery prescribed by the spec's words for claim C2: split the fetched
range into lines and discard a possible trailing partial line. -/
def specCompleteLines (chunk : List Char) : List (List Char) :=
  match chunk.getLast? with
  | some c => if c = '\n' then splitlines chunk else (splitlines chunk).dropLast
  | none => []

/-! ## Theorems about the Log Tailer -/

/-- C1 counterexample: after a shrink (rotation) the offset is reset to 0,
but the following poll does **not** read the file from byte 0: with
`last_size = 0` the code takes the bootstrap branch (`tail -n 5`, line 952),
so the first line of a six-line rotated file is never delivered, although a
read from byte 0 would deliver it. -/
theorem rotation_bootstrap_counterexample :
    (pollStep 500 (List.replicate 50 'x')).lastSize = 0 ∧
    (pollStep 500 (List.replicate 50 'x')).delivered = [] ∧
    (pollStep 0 (strL "l1\nl2\nl3\nl4\nl5\nl6\n")).delivered ≠
      processNewLines (strL "l1\nl2\nl3\nl4\nl5\nl6\n") ∧
    strL "l1" ∉ (pollStep 0 (strL "l1\nl2\nl3\nl4\nl5\nl6\n")).delivered ∧
    strL "l1" ∈ processNewLines (strL "l1\nl2\nl3\nl4\nl5\nl6\n") := by
  decide

/-- C1 (amended): if the watched file's size drops strictly below
`last_offset`, the poll resets `last_offset` to 0 and delivers nothing; the
next poll, finding `last_offset = 0`, takes the first-poll bootstrap path:
it reads only the last 5 lines of the file (`tail -n 5`), not the content
from byte 0, delivers their non-blank lines and sets `last_offset = S`. -/
theorem rotation_resets_then_bootstraps :
    (∀ (lastSize : Nat) (f : List Char), f.length < lastSize →
      pollStep lastSize f = ⟨0, [], false, false⟩) ∧
    (∀ f : List Char, 0 < f.length →
      pollStep 0 f =
        ⟨f.length, processNewLines (stripStr (tailLines 5 f)), false, false⟩) := by
  constructor
  · intro lastSize f h
    simp only [pollStep, periodicCheckIter, Bool.not_true, Bool.false_and,
      Bool.not_false, if_false, Bool.false_eq_true, if_neg (by omega : ¬ lastSize < f.length)]
    simp [h]
  · intro f h
    simp [pollStep, periodicCheckIter, pollContent, h]

/-- Witness for `rotation_resets_then_bootstraps` at concrete inputs. -/
theorem rotation_resets_then_bootstraps_witness :
    pollStep 3 ['a'] = ⟨0, [], false, false⟩ ∧
    pollStep 0 ['a'] =
      ⟨1, processNewLines (stripStr (tailLines 5 ['a'])), false, false⟩ :=
  ⟨rotation_resets_then_bootstraps.1 3 ['a'] (by decide),
   rotation_resets_then_bootstraps.2 ['a'] (by decide)⟩

/-- C2 counterexample: on a non-first poll the code does **not** discard a
trailing partial line, and blank complete lines are dropped.  With the file
`"a\nx\n\ny"` and `last_offset = 2` the fetched range is `"x\n\ny"`; the
code delivers `["x", "y"]` — the trailing partial line `"y"` is handed to
the line processor and the blank line is dropped — while the spec's
complete-lines delivery would be `["x", ""]`. -/
theorem partial_line_delivered_counterexample :
    (pollStep 2 (strL "a\nx\n\ny")).delivered = [strL "x", strL "y"] ∧
    specCompleteLines ((strL "a\nx\n\ny").drop 2) = [strL "x", strL ""] ∧
    (pollStep 2 (strL "a\nx\n\ny")).delivered ≠
      specCompleteLines ((strL "a\nx\n\ny").drop 2) := by
  decide

/-- C2 (amended): on every poll with `0 < last_offset < S`, the tailer
fetches exactly the byte range `[last_offset, S)` (`tail -c +(last_offset+1)`),
strips surrounding whitespace, splits into lines, and delivers every
non-blank line — including a possible trailing partial line — in file order
(the delivered list is a sublist of the split of the fetched range), and
sets `last_offset = S`. -/
theorem grown_file_delivery :
    ∀ (lastSize : Nat) (f : List Char), 0 < lastSize → lastSize < f.length →
      pollStep lastSize f =
        ⟨f.length, processNewLines (stripStr (f.drop lastSize)), false, false⟩ ∧
      (pollStep lastSize f).delivered.Sublist (splitlines (stripStr (f.drop lastSize))) := by
  intro lastSize f h0 hlt
  have hne : ¬ lastSize = 0 := by omega
  have heq : pollStep lastSize f =
      ⟨f.length, processNewLines (stripStr (f.drop lastSize)), false, false⟩ := by
    simp [pollStep, periodicCheckIter, pollContent, hlt, hne]
  refine ⟨heq, ?_⟩
  rw [heq]
  exact List.filter_sublist _

/-- Witness for `grown_file_delivery` at a concrete input. -/
theorem grown_file_delivery_witness :
    pollStep 2 (strL "a\nb\nc") =
      ⟨5, processNewLines (stripStr ((strL "a\nb\nc").drop 2)), false, false⟩ ∧
    (pollStep 2 (strL "a\nb\nc")).delivered.Sublist
      (splitlines (stripStr ((strL "a\nb\nc").drop 2))) :=
  grown_file_delivery 2 (strL "a\nb\nc") (by decide) (by decide)

/-- C6 counterexample: four consecutive polls whose `stat` command fails.
All four are marked failed, the offset never moves, and **no** reconnect is
attempted before any of them — in particular not before the fourth poll,
although the three preceding polls all failed. -/
theorem three_failures_no_reconnect_counterexample :
    ((runPolls 7 (List.replicate 4 ⟨true, true, false, true, []⟩)).2.map
        PollResult.pollFailed) = [true, true, true, true] ∧
    ((runPolls 7 (List.replicate 4 ⟨true, true, false, true, []⟩)).2.map
        PollResult.reconnectAttempted) = [false, false, false, false] ∧
    (runPolls 7 (List.replicate 4 ⟨true, true, false, true, []⟩)).1 = 7 := by
  decide

/-- C6 (amended): a stat failure — and likewise a read failure on a grown
file — marks the poll as failed, delivers nothing and leaves `last_offset`
unchanged, so the poll is simply retried on the next interval; a reconnect
is attempted before a poll exactly when the SSH transport is inactive — the
number of consecutive failed polls plays no role (no forced reconnect after
three failures exists). -/
theorem poll_failure_retry_reconnect_on_dead_transport_only :
    (∀ (lastSize : Nat) (inp : PollInput), inp.statOk = false →
      (periodicCheckIter lastSize inp).delivered = [] ∧
      (periodicCheckIter lastSize inp).lastSize = lastSize ∧
      (periodicCheckIter lastSize inp).pollFailed = true) ∧
    (∀ (lastSize : Nat) (inp : PollInput), inp.readOk = false →
      lastSize < inp.file.length →
      (periodicCheckIter lastSize inp).delivered = [] ∧
      (periodicCheckIter lastSize inp).lastSize = lastSize ∧
      (periodicCheckIter lastSize inp).pollFailed = true) ∧
    (∀ (lastSize : Nat) (inp : PollInput),
      (periodicCheckIter lastSize inp).reconnectAttempted = !inp.transportActive) := by
  refine ⟨?_, ?_, ?_⟩
  · intro lastSize inp h
    cases inp with
    | mk ta ro so rd f =>
      simp only at h
      subst h
      cases ta <;> cases ro <;> simp [periodicCheckIter]
  · intro lastSize inp h hlt
    cases inp with
    | mk ta ro so rd f =>
      simp only at h hlt
      subst h
      cases ta <;> cases ro <;> cases so <;> simp [periodicCheckIter, hlt]
  · intro lastSize inp
    cases inp with
    | mk ta ro so rd f =>
      cases ta <;> cases ro <;> cases so <;> cases rd <;>
        simp only [periodicCheckIter, Bool.not_true, Bool.not_false, Bool.and_self,
          Bool.true_and, Bool.false_and, Bool.and_true, Bool.and_false,
          if_true, if_false, Bool.false_eq_true, Bool.true_eq_false, ite_false, ite_true] <;>
        (first
          | rfl
          | (split
             · rfl
             · split <;> rfl))

/-- Witness for `poll_failure_retry_reconnect_on_dead_transport_only`:
a concrete stat failure and a concrete read failure on a grown file. -/
theorem poll_failure_retry_witness :
    ((periodicCheckIter 9 ⟨true, true, false, true, strL "abc"⟩).delivered = [] ∧
     (periodicCheckIter 9 ⟨true, true, false, true, strL "abc"⟩).lastSize = 9 ∧
     (periodicCheckIter 9 ⟨true, true, false, true, strL "abc"⟩).pollFailed = true) ∧
    ((periodicCheckIter 1 ⟨true, true, true, false, strL "abc"⟩).delivered = [] ∧
     (periodicCheckIter 1 ⟨true, true, true, false, strL "abc"⟩).lastSize = 1 ∧
     (periodicCheckIter 1 ⟨true, true, true, false, strL "abc"⟩).pollFailed = true) :=
  ⟨poll_failure_retry_reconnect_on_dead_transport_only.1 9
     ⟨true, true, false, true, strL "abc"⟩ rfl,
   poll_failure_retry_reconnect_on_dead_transport_only.2.1 1
     ⟨true, true, true, false, strL "abc"⟩ rfl (by decide)⟩

/-! ## Pattern Matcher: `LogParser` (src/securebot.py lines 643-791)

The regexes of `LogParser` are embedded with a backtracking matcher over
`List Char`.  A matcher returns the list of all `(value, rest)` outcomes in
backtracking priority order (greedy quantifiers yield the longest
alternative first, alternations are tried left to right), so the head of
the list is exactly the match Python's `re.match` finds.  Every quantifier
in the source's patterns ranges over a single-character class, which the
combinators below cover. -/

/-- Backtracking matcher monad: all outcomes in priority order. -/
def RM (α : Type) : Type :=
  List Char → List (α × List Char)

instance : Monad RM where
  pure a := fun s => [(a, s)]
  bind m f := fun s => (m s).flatMap (fun p => f p.1 p.2)

/-- A literal piece of the pattern (`sshd\[`, `NOTICE`, ...). -/
def mlit (cs : List Char) : RM (List Char) :=
  fun s => if cs.isPrefixOf s then [(cs, s.drop cs.length)] else []

/-- Greedy `p+` for a character class: longest first. -/
def mplus (p : Char → Bool) : RM (List Char) :=
  fun s =>
    let r := s.takeWhile p
    (List.range r.length).map (fun i => (r.take (r.length - i), s.drop (r.length - i)))

/-- Greedy `p*` for a character class: longest first (includes empty). -/
def mstar (p : Char → Bool) : RM (List Char) :=
  fun s =>
    let r := s.takeWhile p
    (List.range (r.length + 1)).map (fun i => (r.take (r.length - i), s.drop (r.length - i)))

/-- Repetition of a class exactly `n` times. -/
def mrepn (p : Char → Bool) (n : Nat) : RM (List Char) :=
  fun s =>
    if (s.take n).length = n && (s.take n).all p then [(s.take n, s.drop n)] else []

/-- Alternation of literals, tried left to right. -/
def maltLit (ws : List (List Char)) : RM (List Char) :=
  fun s => ws.flatMap (fun w => if w.isPrefixOf s then [(w, s.drop w.length)] else [])

/-- Model of `re.match`: anchored at the start, the first (leftmost-greedy) outcome. -/
def matchRM {α : Type} (m : RM α) (s : List Char) : Option α :=
  ((m s).map Prod.fst).head?

/-- Class `\s` (same ASCII/Latin-1 subset as `pyIsSpace`). -/
def reSpace (c : Char) : Bool := pyIsSpace c

/-- Class `\S`. -/
def reNonSpace (c : Char) : Bool := !pyIsSpace c

/-- Class `\d`. -/
def reDigit (c : Char) : Bool := c.isDigit

/-- Class `\w`. -/
def reWord (c : Char) : Bool := c.isAlphanum || c = '_'

/-- Class `.` (anything but a newline). -/
def reAny (c : Char) : Bool := c != '\n'

/-- Class excluding the closing bracket. -/
def reNotRBracket (c : Char) : Bool := c != ']'

/-- Capture group `(\w{3}\s+\d+\s+\d+:\d+:\d+)`: the legacy syslog
timestamp shared by all `_OLD` patterns. -/
def tsOldG : RM (List Char) := do
  let a ← mrepn reWord 3
  let b ← mplus reSpace
  let c ← mplus reDigit
  let d ← mplus reSpace
  let e ← mplus reDigit
  let f ← mlit (strL ":")
  let g ← mplus reDigit
  let h ← mlit (strL ":")
  let i ← mplus reDigit
  pure (a ++ b ++ c ++ d ++ e ++ f ++ g ++ h ++ i)

/-- Capture group `(\d{4}-\d{2}-\d{2}\s+\d{2}:\d{2}:\d{2},\d+)`: the
ISO-like timestamp shared by all `_NEW` patterns. -/
def tsNewG : RM (List Char) := do
  let a ← mrepn reDigit 4
  let b ← mlit (strL "-")
  let c ← mrepn reDigit 2
  let d ← mlit (strL "-")
  let e ← mrepn reDigit 2
  let f ← mplus reSpace
  let g ← mrepn reDigit 2
  let h ← mlit (strL ":")
  let i ← mrepn reDigit 2
  let j ← mlit (strL ":")
  let k ← mrepn reDigit 2
  let l ← mlit (strL ",")
  let m ← mplus reDigit
  pure (a ++ b ++ c ++ d ++ e ++ f ++ g ++ h ++ i ++ j ++ k ++ l ++ m)

/-- Pattern `SSH_LOGIN_PATTERN` (line 647): groups (timestamp, username, ip). -/
def sshLoginRe : RM (List Char × List Char × List Char) := do
  let ts ← tsOldG
  let _ ← mstar reAny
  let _ ← mlit (strL "sshd[")
  let _ ← mplus reDigit
  let _ ← mlit (strL "]:")
  let _ ← mplus reSpace
  let _ ← mlit (strL "Accepted")
  let _ ← mplus reSpace
  let _ ← maltLit [strL "publickey", strL "password", strL "keyboard-interactive/pam"]
  let _ ← mplus reSpace
  let _ ← mlit (strL "for")
  let _ ← mplus reSpace
  let user ← mplus reNonSpace
  let _ ← mplus reSpace
  let _ ← mlit (strL "from")
  let _ ← mplus reSpace
  let ip ← mplus reNonSpace
  pure (ts, user, ip)

/-- Tail common to `FAIL2BAN_BAN_PATTERN_*` and `FAIL2BAN_UNBAN_PATTERN_*`:
`NOTICE\s+\[([^\]]+)\]\s+<verb>\s+(\S+)`; groups (jail, ip). -/
def f2bNoticeTail (verb : List Char) : RM (List Char × List Char) := do
  let _ ← mlit (strL "NOTICE")
  let _ ← mplus reSpace
  let _ ← mlit (strL "[")
  let jail ← mplus reNotRBracket
  let _ ← mlit (strL "]")
  let _ ← mplus reSpace
  let _ ← mlit verb
  let _ ← mplus reSpace
  let ip ← mplus reNonSpace
  pure (jail, ip)

/-- Bridge of the `_OLD` variants between the timestamp and the notice. -/
def f2bActionsOldBridge : RM Unit := do
  let _ ← mstar reAny
  let _ ← mlit (strL "fail2ban.actions[")
  let _ ← mplus reDigit
  let _ ← mlit (strL "]:")
  let _ ← mplus reSpace
  pure ()

/-- Bridge of the `_NEW` variants between the timestamp and the notice. -/
def f2bActionsNewBridge : RM Unit := do
  let _ ← mplus reSpace
  let _ ← mlit (strL "fail2ban.actions")
  let _ ← mplus reSpace
  let _ ← mlit (strL "[")
  let _ ← mplus reDigit
  let _ ← mlit (strL "]:")
  let _ ← mplus reSpace
  pure ()

/-- Pattern `FAIL2BAN_BAN_PATTERN_OLD` (line 652): groups (timestamp, jail, ip). -/
def f2bBanOldRe : RM (List Char × List Char × List Char) := do
  let ts ← tsOldG
  let _ ← f2bActionsOldBridge
  let (jail, ip) ← f2bNoticeTail (strL "Ban")
  pure (ts, jail, ip)

/-- Pattern `FAIL2BAN_BAN_PATTERN_NEW` (line 656): groups (timestamp, jail, ip). -/
def f2bBanNewRe : RM (List Char × List Char × List Char) := do
  let ts ← tsNewG
  let _ ← f2bActionsNewBridge
  let (jail, ip) ← f2bNoticeTail (strL "Ban")
  pure (ts, jail, ip)

/-- Pattern `FAIL2BAN_UNBAN_PATTERN_OLD` (line 661). -/
def f2bUnbanOldRe : RM (List Char × List Char × List Char) := do
  let ts ← tsOldG
  let _ ← f2bActionsOldBridge
  let (jail, ip) ← f2bNoticeTail (strL "Unban")
  pure (ts, jail, ip)

/-- Pattern `FAIL2BAN_UNBAN_PATTERN_NEW` (line 665). -/
def f2bUnbanNewRe : RM (List Char × List Char × List Char) := do
  let ts ← tsNewG
  let _ ← f2bActionsNewBridge
  let (jail, ip) ← f2bNoticeTail (strL "Unban")
  pure (ts, jail, ip)

/-- Tail common to the already-banned patterns:
`(?:NOTICE|WARNING)\s+\[([^\]]+)\]\s+(\S+)\s+already\s+banned`. -/
def f2bAlreadyTail : RM (List Char × List Char) := do
  let _ ← maltLit [strL "NOTICE", strL "WARNING"]
  let _ ← mplus reSpace
  let _ ← mlit (strL "[")
  let jail ← mplus reNotRBracket
  let _ ← mlit (strL "]")
  let _ ← mplus reSpace
  let ip ← mplus reNonSpace
  let _ ← mplus reSpace
  let _ ← mlit (strL "already")
  let _ ← mplus reSpace
  let _ ← mlit (strL "banned")
  pure (jail, ip)

/-- Pattern `FAIL2BAN_ALREADY_BANNED_PATTERN_OLD` (line 670). -/
def f2bAlreadyOldRe : RM (List Char × List Char × List Char) := do
  let ts ← tsOldG
  let _ ← f2bActionsOldBridge
  let (jail, ip) ← f2bAlreadyTail
  pure (ts, jail, ip)

/-- Pattern `FAIL2BAN_ALREADY_BANNED_PATTERN_NEW` (line 674). -/
def f2bAlreadyNewRe : RM (List Char × List Char × List Char) := do
  let ts ← tsNewG
  let _ ← f2bActionsNewBridge
  let (jail, ip) ← f2bAlreadyTail
  pure (ts, jail, ip)

/-- Trailing second timestamp of the found patterns:
`\s+-\s+\d{4}-\d{2}-\d{2}\s+\d{2}:\d{2}:\d{2}`. -/
def f2bFoundTrail : RM Unit := do
  let _ ← mplus reSpace
  let _ ← mlit (strL "-")
  let _ ← mplus reSpace
  let _ ← mrepn reDigit 4
  let _ ← mlit (strL "-")
  let _ ← mrepn reDigit 2
  let _ ← mlit (strL "-")
  let _ ← mrepn reDigit 2
  let _ ← mplus reSpace
  let _ ← mrepn reDigit 2
  let _ ← mlit (strL ":")
  let _ ← mrepn reDigit 2
  let _ ← mlit (strL ":")
  let _ ← mrepn reDigit 2
  pure ()

/-- Pattern `FAIL2BAN_FOUND_IP_PATTERN_OLD` (line 679):
`(\w{3}\s+\d+\s+\d+:\d+:\d+).*fail2ban\.filter\[\d+\]:\s+INFO\s+\[([^\]]+)\]\s+Found\s+(\S+)` + trail. -/
def f2bFoundOldRe : RM (List Char × List Char × List Char) := do
  let ts ← tsOldG
  let _ ← mstar reAny
  let _ ← mlit (strL "fail2ban.filter[")
  let _ ← mplus reDigit
  let _ ← mlit (strL "]:")
  let _ ← mplus reSpace
  let _ ← mlit (strL "INFO")
  let _ ← mplus reSpace
  let _ ← mlit (strL "[")
  let jail ← mplus reNotRBracket
  let _ ← mlit (strL "]")
  let _ ← mplus reSpace
  let _ ← mlit (strL "Found")
  let _ ← mplus reSpace
  let ip ← mplus reNonSpace
  let _ ← f2bFoundTrail
  pure (ts, jail, ip)

/-- Pattern `FAIL2BAN_FOUND_IP_PATTERN_NEW` (line 683). -/
def f2bFoundNewRe : RM (List Char × List Char × List Char) := do
  let ts ← tsNewG
  let _ ← mplus reSpace
  let _ ← mlit (strL "fail2ban.filter")
  let _ ← mplus reSpace
  let _ ← mlit (strL "[")
  let _ ← mplus reDigit
  let _ ← mlit (strL "]:")
  let _ ← mplus reSpace
  let _ ← mlit (strL "INFO")
  let _ ← mplus reSpace
  let _ ← mlit (strL "[")
  let jail ← mplus reNotRBracket
  let _ ← mlit (strL "]")
  let _ ← mplus reSpace
  let _ ← mlit (strL "Found")
  let _ ← mplus reSpace
  let ip ← mplus reNonSpace
  let _ ← f2bFoundTrail
  pure (ts, jail, ip)

/-! ## Event fingerprints and deduplication (lines 697-702, 763-769)

`KNOWN_EVENTS` is the process-wide seen-set; the parse functions compute a
fingerprint string with an f-string, check membership, and add it.  Python
interpolates `None` as the text `None`. -/

/-- f-string interpolation of an `Optional[str]`. -/
def optStr : Option String → String
  | none => "None"
  | some s => s

/-- Model of `server_name or "localhost"` (an empty string is also falsy). -/
def orLocalhost : Option String → String
  | none => "localhost"
  | some s => if s = "" then "localhost" else s

/-- Line 698: `f"ssh_login_{server_name}_{ip}_{username}_{timestamp}"`. -/
def sshEventId (serverName : Option String) (ip username timestamp : String) : String :=
  "ssh_login_" ++ optStr serverName ++ "_" ++ ip ++ "_" ++ username ++ "_" ++ timestamp

/-- Line 764: `f"fail2ban_{event_type}_{server_name}_{ip}_{jail}_{timestamp}"`. -/
def f2bEventId (etype : String) (serverName : Option String) (ip jail timestamp : String) : String :=
  "fail2ban_" ++ etype ++ "_" ++ optStr serverName ++ "_" ++ ip ++ "_" ++ jail ++ "_" ++ timestamp

/-- The Event Deduplicator's `accept`: membership test in the seen-set,
inserting on novelty (lines 699-702 / 765-769). -/
def dedupAccept (seen : List String) (fp : String) : Bool × List String :=
  if fp ∈ seen then (false, seen) else (true, fp :: seen)

/-- The event dictionary built by `parse_ssh_log_line` (lines 712-719). -/
structure SshEvent where
  etype : String
  timestamp : String
  username : String
  ip : String
  hostname : Option String
  server : String
deriving Repr, DecidableEq

/-- The event dictionary built by `parse_fail2ban_log_line` (lines 780-787). -/
structure F2bEvent where
  etype : String
  timestamp : String
  jail : String
  ip : String
  hostname : Option String
  server : String
deriving Repr, DecidableEq

/-- Model of `LogParser.parse_ssh_log_line` (lines 689-721).  `resolveHostnames` is
the `customization.resolve_hostnames` flag and `resolver` the outcome of
`socket.gethostbyaddr`; the seen-set is threaded explicitly. -/
def parseSshLogLine (resolveHostnames : Bool) (resolver : String → Option String)
    (line : List Char) (serverName : Option String) (seen : List String) :
    Option SshEvent × List String :=
  match matchRM sshLoginRe line with
  | none => (none, seen)
  | some (ts, username, ip) =>
    let eventId := sshEventId serverName (String.mk ip) (String.mk username) (String.mk ts)
    if eventId ∈ seen then (none, seen)
    else
      let hostname := if resolveHostnames then resolver (String.mk ip) else none
      (some ⟨"ssh_login", String.mk ts, String.mk username, String.mk ip,
             hostname, orLocalhost serverName⟩,
       eventId :: seen)

/-- Lines 726-761: the pattern cascade of `parse_fail2ban_log_line`, in the
source's `if`/`elif` order; yields the groups and the event type keyword. -/
def parseFail2banMatch (line : List Char) :
    Option (List Char × List Char × List Char × String) :=
  match matchRM f2bBanOldRe line with
  | some (ts, jail, ip) => some (ts, jail, ip, "ban")
  | none =>
  match matchRM f2bBanNewRe line with
  | some (ts, jail, ip) => some (ts, jail, ip, "ban")
  | none =>
  match matchRM f2bUnbanOldRe line with
  | some (ts, jail, ip) => some (ts, jail, ip, "unban")
  | none =>
  match matchRM f2bUnbanNewRe line with
  | some (ts, jail, ip) => some (ts, jail, ip, "unban")
  | none =>
  match matchRM f2bAlreadyOldRe line with
  | some (ts, jail, ip) => some (ts, jail, ip, "already_banned")
  | none =>
  match matchRM f2bAlreadyNewRe line with
  | some (ts, jail, ip) => some (ts, jail, ip, "already_banned")
  | none =>
  match matchRM f2bFoundOldRe line with
  | some (ts, jail, ip) => some (ts, jail, ip, "found")
  | none =>
  match matchRM f2bFoundNewRe line with
  | some (ts, jail, ip) => some (ts, jail, ip, "found")
  | none => none

/-- Model of `LogParser.parse_fail2ban_log_line` (lines 724-791). -/
def parseFail2banLogLine (resolveHostnames : Bool) (resolver : String → Option String)
    (line : List Char) (serverName : Option String) (seen : List String) :
    Option F2bEvent × List String :=
  match parseFail2banMatch line with
  | none => (none, seen)
  | some (ts, jail, ip, etype) =>
    let eventId := f2bEventId etype serverName (String.mk ip) (String.mk jail) (String.mk ts)
    if eventId ∈ seen then (none, seen)
    else
      let hostname := if resolveHostnames then resolver (String.mk ip) else none
      (some ⟨"fail2ban_" ++ etype, String.mk ts, String.mk jail, String.mk ip,
             hostname, orLocalhost serverName⟩,
       eventId :: seen)

/-- The spec's SSH sample line. -/
def sshSample : List Char :=
  strL "May 18 17:36:28 host sshd[123]: Accepted publickey for alice from 10.0.0.5"

/-- The spec's fail2ban sample line (new timestamp format). -/
def f2bSample : List Char :=
  strL "2025-05-18 17:36:28,767 fail2ban.actions [456]: NOTICE [sshd] Ban 10.0.0.9"

set_option maxRecDepth 10000

/-! ## Theorems about Pattern Matcher and Deduplicator -/

/-- C9: the SSH sample line parses to a login event with username `alice`,
ip `10.0.0.5` and timestamp `May 18 17:36:28`; the 2025-format fail2ban
sample line parses to a ban event with jail `sshd` and ip `10.0.0.9`. -/
theorem pattern_matcher_examples :
    (parseSshLogLine false (fun _ => none) sshSample none []).1 =
      some ⟨"ssh_login", "May 18 17:36:28", "alice", "10.0.0.5", none, "localhost"⟩ ∧
    (parseFail2banLogLine false (fun _ => none) f2bSample none []).1 =
      some ⟨"fail2ban_ban", "2025-05-18 17:36:28,767", "sshd", "10.0.0.9", none, "localhost"⟩ := by
  decide

/-- C3: for both event kinds, presenting two events with identical
(kind, host, ip, jail-or-username, timestamp) to the deduplicator accepts
the first (a novel fingerprint is inserted and accepted) and rejects the
second — stated for the SSH fingerprint of `parse_ssh_log_line` (line 698)
and for the fail2ban fingerprint of `parse_fail2ban_log_line` (line 764);
at the parse level, the second occurrence of the same SSH log line and of
the same fail2ban log line yields `None` and leaves the seen-set
unchanged. -/
theorem dedup_first_accepted_second_rejected :
    (∀ (seen : List String) (s1 s2 : Option String) (i1 i2 u1 u2 t1 t2 : String),
      s1 = s2 → i1 = i2 → u1 = u2 → t1 = t2 →
      sshEventId s1 i1 u1 t1 ∉ seen →
      (dedupAccept seen (sshEventId s1 i1 u1 t1)).1 = true ∧
      (dedupAccept (dedupAccept seen (sshEventId s1 i1 u1 t1)).2
        (sshEventId s2 i2 u2 t2)).1 = false) ∧
    (∀ (seen : List String) (e1 e2 : String) (s1 s2 : Option String)
        (i1 i2 j1 j2 t1 t2 : String),
      e1 = e2 → s1 = s2 → i1 = i2 → j1 = j2 → t1 = t2 →
      f2bEventId e1 s1 i1 j1 t1 ∉ seen →
      (dedupAccept seen (f2bEventId e1 s1 i1 j1 t1)).1 = true ∧
      (dedupAccept (dedupAccept seen (f2bEventId e1 s1 i1 j1 t1)).2
        (f2bEventId e2 s2 i2 j2 t2)).1 = false) ∧
    ((parseSshLogLine false (fun _ => none) sshSample none []).1.isSome = true ∧
     (parseSshLogLine false (fun _ => none) sshSample none
        (parseSshLogLine false (fun _ => none) sshSample none []).2) =
       (none, (parseSshLogLine false (fun _ => none) sshSample none []).2)) ∧
    ((parseFail2banLogLine false (fun _ => none) f2bSample none []).1.isSome = true ∧
     (parseFail2banLogLine false (fun _ => none) f2bSample none
        (parseFail2banLogLine false (fun _ => none) f2bSample none []).2) =
       (none, (parseFail2banLogLine false (fun _ => none) f2bSample none []).2)) := by
  refine ⟨?_, ?_, ⟨?_, ?_⟩, ⟨?_, ?_⟩⟩
  · intro seen s1 s2 i1 i2 u1 u2 t1 t2 hs hi hu ht hnew
    subst hs; subst hi; subst hu; subst ht
    simp [dedupAccept, hnew]
  · intro seen e1 e2 s1 s2 i1 i2 j1 j2 t1 t2 he hs hi hj ht hnew
    subst he; subst hs; subst hi; subst hj; subst ht
    simp [dedupAccept, hnew]
  · decide
  · decide
  · decide
  · decide

/-- Witness for `dedup_first_accepted_second_rejected`: concrete identical
pairs for both the SSH and the fail2ban fingerprint. -/
theorem dedup_first_accepted_second_rejected_witness :
    ((dedupAccept [] (sshEventId (some "h") "1.2.3.4" "alice" "t")).1 = true ∧
     (dedupAccept (dedupAccept [] (sshEventId (some "h") "1.2.3.4" "alice" "t")).2
       (sshEventId (some "h") "1.2.3.4" "alice" "t")).1 = false) ∧
    ((dedupAccept [] (f2bEventId "ban" (some "h") "1.2.3.4" "sshd" "t")).1 = true ∧
     (dedupAccept (dedupAccept [] (f2bEventId "ban" (some "h") "1.2.3.4" "sshd" "t")).2
       (f2bEventId "ban" (some "h") "1.2.3.4" "sshd" "t")).1 = false) :=
  ⟨dedup_first_accepted_second_rejected.1 [] (some "h") (some "h")
     "1.2.3.4" "1.2.3.4" "alice" "alice" "t" "t" rfl rfl rfl rfl (by decide),
   dedup_first_accepted_second_rejected.2.1 [] "ban" "ban" (some "h") (some "h")
     "1.2.3.4" "1.2.3.4" "sshd" "sshd" "t" "t" rfl rfl rfl rfl rfl (by decide)⟩

/-- C4 refutation: the fingerprint is a plain underscore join of the tuple
components, so two distinct tuples can collide whenever a component itself
contains an underscore: the events (host `a`, ip `b_c`, user `d`, time `t`)
and (host `a_b`, ip `c`, user `d`, time `t`) receive the same fingerprint
`ssh_login_a_b_c_d_t` and would be merged as duplicates. -/
theorem fingerprint_collision :
    sshEventId (some "a") "b_c" "d" "t" = sshEventId (some "a_b") "c" "d" "t" ∧
    ((some "a" : Option String), ("b_c" : String)) ≠ ((some "a_b" : Option String), ("c" : String)) := by
  decide

/-! ## Notification Gate (lines 980-983, 1799-1831)

`NOTIFICATION_MUTED` / `MUTE_UNTIL` as a state record; wall-clock time in
seconds as a natural number. -/

/-- State pair `(NOTIFICATION_MUTED, MUTE_UNTIL)`. -/
structure MuteState where
  muted : Bool
  muteUntil : Nat
deriving Repr, DecidableEq

/-- The gate applied before each notification (lines 982-983, 1015):
notify unless `NOTIFICATION_MUTED and time.time() < MUTE_UNTIL`. -/
def notifyAllowed (st : MuteState) (now : Nat) : Bool :=
  !(st.muted && decide (now < st.muteUntil))

/-- Python `str.isdigit()` (ASCII digits; the inputs involved are ASCII). -/
def pyIsDigitStr (s : String) : Bool :=
  !s.data.isEmpty && s.data.all Char.isDigit

/-- Python `int()` on a digit string. -/
def pyInt (s : String) : Nat :=
  s.data.foldl (fun n c => n * 10 + (c.toNat - 48)) 0

/-- Lines 1810-1813: `minutes = 30` by default; with a digit-string
argument, `minutes = min(int(args[0]), 1440)`. -/
def muteMinutes (args : List String) : Nat :=
  match args.head? with
  | some s => if pyIsDigitStr s then min (pyInt s) 1440 else 30
  | none => 30

/-- Model of `mute_command` (lines 1799-1818): sets `NOTIFICATION_MUTED = True`,
`MUTE_UNTIL = time.time() + minutes * 60`. -/
def muteCommand (now : Nat) (args : List String) : MuteState :=
  ⟨true, now + muteMinutes args * 60⟩

/-- Model of `unmute_command` (lines 1820-1831): clears `NOTIFICATION_MUTED` only. -/
def unmuteCommand (st : MuteState) : MuteState :=
  ⟨false, st.muteUntil⟩

/-- C5: the gate is purely `not muted or now >= mute_until`; `mute` clamps
the requested minutes to 1440 and sets `muted = true`,
`mute_until = now + minutes*60`; immediately after `mute(30)` the gate is
closed and it reopens exactly once wall-clock time reaches `mute_until`;
`unmute` reopens the gate immediately, regardless of `mute_until`. -/
theorem notification_gate_contract :
    (∀ (st : MuteState) (now : Nat),
      notifyAllowed st now = (!st.muted || decide (st.muteUntil ≤ now))) ∧
    (∀ (now : Nat) (s : String) (rest : List String), pyIsDigitStr s = true →
      muteCommand now (s :: rest) = ⟨true, now + min (pyInt s) 1440 * 60⟩) ∧
    (∀ (now t : Nat), t < now + 1800 →
      notifyAllowed (muteCommand now ["30"]) t = false) ∧
    (∀ (now t : Nat), now + 1800 ≤ t →
      notifyAllowed (muteCommand now ["30"]) t = true) ∧
    (∀ (st : MuteState) (t : Nat), notifyAllowed (unmuteCommand st) t = true) := by
  have hmm : muteMinutes ["30"] = 30 := by decide
  refine ⟨?_, ?_, ?_, ?_, ?_⟩
  · intro st now
    cases st with
    | mk m u =>
      cases m
      · simp [notifyAllowed]
      · simp only [notifyAllowed, Bool.true_and, Bool.not_true, Bool.false_or]
        simp only [← decide_not, decide_eq_decide]
        omega
  · intro now s rest h
    simp [muteCommand, muteMinutes, h]
  · intro now t h
    simp only [muteCommand, hmm, notifyAllowed, Bool.true_and]
    simpa using h
  · intro now t h
    simp only [muteCommand, hmm, notifyAllowed, Bool.true_and]
    simpa using h
  · intro st t
    simp [notifyAllowed, unmuteCommand]

/-- Witness for `notification_gate_contract`. -/
theorem notification_gate_contract_witness :
    muteCommand 1000 ["2000"] = ⟨true, 1000 + min (pyInt "2000") 1440 * 60⟩ ∧
    notifyAllowed (muteCommand 1000 ["30"]) 1005 = false ∧
    notifyAllowed (muteCommand 1000 ["30"]) 2800 = true :=
  ⟨notification_gate_contract.2.1 1000 "2000" [] (by decide),
   notification_gate_contract.2.2.1 1000 1005 (by decide),
   notification_gate_contract.2.2.2.1 1000 2800 (by decide)⟩

/-! ## Action Executor: the permanent-ban ledger (lines 394-478)

`CONFIG["permanent_bans"]` is modelled as an association list keyed by IP;
the outcomes of every external call (`save_config`, `list_jails`,
`ban_ip`, `iptables`) enter as an oracle environment. -/

/-- The value stored under `CONFIG["permanent_bans"][ip]` (lines 407-411). -/
structure BanRecord where
  timestamp : String
  reason : String
  bannedBy : Option Nat
deriving Repr, DecidableEq

/-- Python dict assignment `bans[ip] = rec`: overwrite in place, or append. -/
def updateBan (bans : List (String × BanRecord)) (ip : String) (rec : BanRecord) :
    List (String × BanRecord) :=
  if bans.any (fun p => p.1 = ip) then
    bans.map (fun p => if p.1 = ip then (ip, rec) else p)
  else bans ++ [(ip, rec)]

/-- Oracle outcomes of the external calls made by `ban_ip_permanently`. -/
structure BanEnv where
  saveOk : Bool
  localOnly : Bool
  localJails : Bool × List String
  localBanOk : String → Bool
  servers : List String
  serverJails : String → Bool × List String
  remoteBanOk : String → String → Bool
  iptablesOk : Bool

/-- Observable outcome of `ban_ip_permanently`. -/
structure PermBanOutcome where
  bans : List (String × BanRecord)
  saveCalled : Bool
  saveReturned : Bool
  success : Bool
  errors : List String
deriving Repr

/-- Model of `Fail2BanManager.ban_ip_permanently` (lines 397-451): records the ban in
`CONFIG["permanent_bans"]`, calls `ConfigManager.save_config` — whose boolean
result the source discards (line 415) — then bans the IP in every local and
remote jail, accumulating per-jail failures; `success` reflects only the
jail-ban outcomes. -/
def banIpPermanently (bans : List (String × BanRecord)) (ip : String) (rec : BanRecord)
    (env : BanEnv) : PermBanOutcome :=
  let bans1 := updateBan bans ip rec
  let localErrors :=
    if env.localJails.1 then
      (env.localJails.2.filter (fun j => !env.localBanOk j)).map
        (fun j => "Failed to ban in local jail " ++ j)
    else []
  let remoteErrors :=
    if !env.localOnly then
      env.servers.flatMap (fun srv =>
        if (env.serverJails srv).1 then
          ((env.serverJails srv).2.filter (fun j => !env.remoteBanOk srv j)).map
            (fun j => "Failed to ban in " ++ srv ++ " jail " ++ j)
        else [])
    else []
  let errs := localErrors ++ remoteErrors
  ⟨bans1, true, env.saveOk, errs.isEmpty, errs⟩

/-- Observable outcome of `remove_permanent_ban`. -/
structure RemoveBanOutcome where
  bans : List (String × BanRecord)
  saveCalled : Bool
  ok : Bool
  message : String
deriving Repr, DecidableEq

/-- Model of `Fail2BanManager.remove_permanent_ban` (lines 459-478): an IP without a
ledger record yields an early failure return before the deletion and before
`save_config`; otherwise the entry is deleted and the ledger rewritten. -/
def removePermanentBan (bans : List (String × BanRecord)) (ip : String) :
    RemoveBanOutcome :=
  if bans.any (fun p => p.1 = ip) then
    ⟨bans.filter (fun p => !(p.1 = ip : Bool)), true, true,
     "Removed permanent ban for " ++ ip⟩
  else
    ⟨bans, false, false, "IP " ++ ip ++ " is not permanently banned"⟩

/-- C7 counterexample: `save_config` fails (`saveOk = false`), every jail
ban succeeds, and `ban_ip_permanently` nevertheless returns success —
the persistence failure is not surfaced — while the in-memory ledger does
receive the new entry. -/
theorem persistence_failure_not_surfaced :
    (banIpPermanently [] "1.2.3.4" ⟨"2025-05-18 17:36:28", "r", none⟩
      ⟨false, true, (true, ["sshd"]), fun _ => true, [], fun _ => (true, []),
       fun _ _ => true, true⟩).success = true ∧
    (banIpPermanently [] "1.2.3.4" ⟨"2025-05-18 17:36:28", "r", none⟩
      ⟨false, true, (true, ["sshd"]), fun _ => true, [], fun _ => (true, []),
       fun _ _ => true, true⟩).saveReturned = false ∧
    (banIpPermanently [] "1.2.3.4" ⟨"2025-05-18 17:36:28", "r", none⟩
      ⟨false, true, (true, ["sshd"]), fun _ => true, [], fun _ => (true, []),
       fun _ _ => true, true⟩).bans =
      [("1.2.3.4", ⟨"2025-05-18 17:36:28", "r", none⟩)] := by
  refine ⟨rfl, rfl, rfl⟩

/-- C7 (amended): a persistence failure during `ban_ip_permanently` is not
surfaced to the caller: the boolean returned by `save_config` is discarded
and the success of the action depends only on the jail-ban outcomes (it is
unchanged when `saveOk` is flipped), while the in-memory state change — the
new entry in the permanent-bans map — is always applied. -/
theorem perm_ban_ignores_save_failure :
    ∀ (bans : List (String × BanRecord)) (ip : String) (rec : BanRecord) (env : BanEnv),
      (banIpPermanently bans ip rec env).saveReturned = env.saveOk ∧
      (banIpPermanently bans ip rec env).success =
        (banIpPermanently bans ip rec env).errors.isEmpty ∧
      (banIpPermanently bans ip rec
          ⟨!env.saveOk, env.localOnly, env.localJails, env.localBanOk,
           env.servers, env.serverJails, env.remoteBanOk, env.iptablesOk⟩).success =
        (banIpPermanently bans ip rec env).success ∧
      (ip, rec) ∈ (banIpPermanently bans ip rec env).bans := by
  intro bans ip rec env
  refine ⟨rfl, rfl, rfl, ?_⟩
  show (ip, rec) ∈ updateBan bans ip rec
  unfold updateBan
  split
  · next h =>
    rw [List.any_eq_true] at h
    obtain ⟨p, hp, hpip⟩ := h
    rw [List.mem_map]
    refine ⟨p, hp, ?_⟩
    simp only [decide_eq_true_eq] at hpip
    simp [hpip]
  · exact List.mem_append_right _ (List.mem_singleton.mpr rfl)

/-- C10: removing a permanent ban for an IP that has no ledger record
returns a failure result (no exception — the embedded function is total and
takes the early-return branch), leaves the in-memory map unchanged, and
does not invoke `save_config` (the ledger is not rewritten). -/
theorem remove_missing_ban_fails_cleanly :
    ∀ (bans : List (String × BanRecord)) (ip : String),
      (∀ p ∈ bans, p.1 ≠ ip) →
      removePermanentBan bans ip =
        ⟨bans, false, false, "IP " ++ ip ++ " is not permanently banned"⟩ := by
  intro bans ip h
  unfold removePermanentBan
  rw [if_neg]
  rw [List.any_eq_true]
  rintro ⟨p, hp, hpip⟩
  simp only [decide_eq_true_eq] at hpip
  exact h p hp hpip

/-- Witness for `remove_missing_ban_fails_cleanly`. -/
theorem remove_missing_ban_fails_cleanly_witness :
    removePermanentBan [("5.6.7.8", ⟨"t", "r", none⟩)] "1.2.3.4" =
      ⟨[("5.6.7.8", ⟨"t", "r", none⟩)], false, false,
       "IP " ++ "1.2.3.4" ++ " is not permanently banned"⟩ :=
  remove_missing_ban_fails_cleanly [("5.6.7.8", ⟨"t", "r", none⟩)] "1.2.3.4"
    (by decide)

/-! ## Command surface: `/fail2ban ban` vs `/fail2ban unban` (lines 1686-1719)

The argument extraction of the two subcommand branches, as handed to
`Fail2BanManager.ban_ip(ip, jail, server)` / `unban_ip(ip, jail, server)`.
`args[0]` is the subcommand itself. -/

/-- An `(ip, jail, server)` argument triple for `ban_ip` / `unban_ip`. -/
structure JailCall where
  ip : String
  jail : String
  server : Option String
deriving Repr, DecidableEq

/-- Lines 1686-1697: `ban` branch — `ip = args[1]; jail = args[2];
server_name = args[3] if len(args) > 3 else None`. -/
def fail2banBanDispatch (args : List String) : Option JailCall :=
  if 2 < args.length then some ⟨args.getD 1 "", args.getD 2 "", args[3]?⟩ else none

/-- Lines 1705-1719: `unban` branch — `jail = args[1]; ip = args[2];
server_name = args[3] if len(args) > 3 else None`. -/
def fail2banUnbanDispatch (args : List String) : Option JailCall :=
  if 2 < args.length then some ⟨args.getD 2 "", args.getD 1 "", args[3]?⟩ else none

/-- C8 refutation: for `/fail2ban unban 1.2.3.4 sshd` the code calls
`unban_ip` with `ip = "sshd"` and `jail = "1.2.3.4"` — the first argument
is used as the jail and the second as the IP, the opposite of the `ban`
branch (and of the command's own usage text
`/fail2ban unban IP JAIL [server]`). -/
theorem unban_swaps_ip_and_jail :
    fail2banUnbanDispatch ["unban", "1.2.3.4", "sshd"] =
      some ⟨"sshd", "1.2.3.4", none⟩ ∧
    fail2banBanDispatch ["ban", "1.2.3.4", "sshd"] =
      some ⟨"1.2.3.4", "sshd", none⟩ ∧
    (fail2banUnbanDispatch ["unban", "1.2.3.4", "sshd"]).map JailCall.ip ≠
      (fail2banBanDispatch ["ban", "1.2.3.4", "sshd"]).map JailCall.ip := by
  decide
